import Mathlib

/-!
Shallow embedding of the YewChat `Chat` component
(src/YewChat/src/components/chat.rs): the component state, the three
update arms (HandleMsg, SubmitMessage, ToggleDarkMode), the view's
per-message rendering, and the localStorage dark-mode load chain.

Inbound frame text is parsed by serde_json; the external text-to-JSON
stage is modelled by passing the resulting JSON parse tree (`Option Json`,
`none` when the text is not valid JSON), and the derived `Deserialize`
decoding of the structs declared in chat.rs is embedded below.  Nested
payload parsing (`serde_json::from_str(&msg.data.unwrap())`) receives the
same external text-to-JSON stage as a function argument `jsonOfString`.
-/

/-- JSON parse trees, as produced by serde_json from raw frame text. -/
inductive Json where
  | null : Json
  | bool : Bool → Json
  | num : Int → Json
  | str : String → Json
  | arr : List Json → Json
  | obj : List (String × Json) → Json

/-- Field lookup in a JSON object, first binding wins. -/
def getField (fields : List (String × Json)) (key : String) : Option Json :=
  (fields.find? (fun p => p.1 == key)).map Prod.snd

/-- Decode a JSON value as a string (serde `String`). -/
def decodeString : Json → Option String
  | .str s => some s
  | _ => none

/-- Decode a JSON value as a list of strings (serde `Vec<String>`). -/
def decodeStringList : Json → Option (List String)
  | .arr xs => xs.mapM decodeString
  | _ => none

/-- Decode an optional struct field (serde `Option<T>`): an absent or
null field is `none`; otherwise the inner decoder must succeed. -/
def decodeOptField (dec : Json → Option α) : Option Json → Option (Option α)
  | none => some none
  | some .null => some none
  | some j => (dec j).map some

/-- The `MsgTypes` enum of chat.rs. -/
inductive MsgTypes where
  | Users : MsgTypes
  | Register : MsgTypes
  | Message : MsgTypes
deriving Repr, DecidableEq

/-- Decode `MsgTypes` with serde rename_all = lowercase. -/
def decodeMsgTypes : Json → Option MsgTypes
  | .str "users" => some .Users
  | .str "register" => some .Register
  | .str "message" => some .Message
  | _ => none

/-- The `WebSocketMessage` struct of chat.rs (rename_all = camelCase). -/
structure WebSocketMessage where
  message_type : MsgTypes
  data_array : Option (List String)
  data : Option String
deriving Repr, DecidableEq

/-- Derived `Deserialize` for `WebSocketMessage`: `messageType` is
required, `dataArray` and `data` are optional. -/
def parseWebSocketMessage (j : Json) : Option WebSocketMessage :=
  match j with
  | .obj fields => do
    let mt ← getField fields "messageType" >>= decodeMsgTypes
    let da ← decodeOptField decodeStringList (getField fields "dataArray")
    let d ← decodeOptField decodeString (getField fields "data")
    some ⟨mt, da, d⟩
  | _ => none

/-- The `MessageData` struct of chat.rs. -/
structure MessageData where
  «from» : String
  message : String
deriving Repr, DecidableEq

/-- Derived `Deserialize` for `MessageData`: both fields required. -/
def parseMessageData (j : Json) : Option MessageData :=
  match j with
  | .obj fields => do
    let f ← getField fields "from" >>= decodeString
    let m ← getField fields "message" >>= decodeString
    some ⟨f, m⟩
  | _ => none

/-- The `UserProfile` struct of chat.rs. -/
structure UserProfile where
  name : String
  avatar : String
deriving Repr, DecidableEq

/-- Avatar URL derivation used in the Users arm of `update`. -/
def avatarUrl (u : String) : String :=
  "https://avatars.dicebear.com/api/adventurer-neutral/" ++ u ++ ".svg"

/-- One roster entry built from a username, as in the Users arm. -/
def mkProfile (u : String) : UserProfile :=
  ⟨u, avatarUrl u⟩

/-- The mutable state of the `Chat` component: roster, message list and
dark-mode flag.  The `chat_input` node handle, the websocket handle and
the event-bus bridge are external resources and appear as explicit
inputs/outputs of the operations below. -/
structure Chat where
  users : List UserProfile
  messages : List MessageData
  dark_mode : Bool
deriving Repr, DecidableEq

/-- The match on `msg.message_type` inside the `Msg::HandleMsg` arm of
`Chat::update`, applied to an already-parsed `WebSocketMessage`.
Returns the new state and the re-render flag; `none` models a panic
(an `unwrap` failing).  `jsonOfString` is the external serde_json
text-to-JSON stage used for the nested `data` payload. -/
def updateParsed (jsonOfString : String → Option Json) (s : Chat)
    (msg : WebSocketMessage) : Option (Chat × Bool) :=
  match msg.message_type with
  | .Users =>
    let users_from_message := msg.data_array.getD []
    some ({ s with users := users_from_message.map mkProfile }, true)
  | .Message =>
    (msg.data).bind (fun d =>
      ((jsonOfString d).bind parseMessageData).bind (fun message_data =>
        some ({ s with messages := s.messages ++ [message_data] }, true)))
  | _ => some (s, false)

/-- The `Msg::HandleMsg` arm of `Chat::update`.  `raw` is the serde_json
parse tree of the inbound frame text (`none` when the text is not valid
JSON); the outer `serde_json::from_str(&s).unwrap()` panics (`none`)
when that parse or the struct decode fails. -/
def handleMsg (jsonOfString : String → Option Json) (s : Chat)
    (raw : Option Json) : Option (Chat × Bool) :=
  (raw.bind parseWebSocketMessage).bind (updateParsed jsonOfString s)

/-- Process a list of already-parsed inbound frames in arrival order,
stopping with `none` if any frame panics. -/
def processParsed (jsonOfString : String → Option Json) (s : Chat) :
    List WebSocketMessage → Option Chat
  | [] => some s
  | f :: rest =>
    (updateParsed jsonOfString s f).bind (fun p => processParsed jsonOfString p.1 rest)

/-- A `users` frame carrying a roster snapshot. -/
def usersFrame (names : List String) : WebSocketMessage :=
  ⟨MsgTypes.Users, some names, none⟩

/-- A `message` frame carrying a nested serialized payload. -/
def messageFrame (payload : String) : WebSocketMessage :=
  ⟨MsgTypes.Message, none, some payload⟩

/-- How the view renders one message body: the `.gif` suffix branch. -/
inductive BodyRender where
  | image : String → BodyRender
  | text : String → BodyRender
deriving Repr, DecidableEq

/-- Rust `str::ends_with`: the pattern is a suffix of the string. -/
def strEndsWith (s post : String) : Bool :=
  post.data.isSuffixOf s.data

/-- The body branch of the view: bodies ending in ".gif" become images. -/
def renderBody (message : String) : BodyRender :=
  if strEndsWith message ".gif" then .image message else .text message

/-- One rendered message bubble: avatar, sender name, rendered body. -/
structure RenderedMessage where
  avatar : String
  sender : String
  body : BodyRender
deriving Repr, DecidableEq

/-- Rendering one message in `Chat::view`: the sender lookup
`self.users.iter().find(|u| u.name == m.from).unwrap()`; `none` models
the panic when no roster entry matches. -/
def renderMessage (s : Chat) (m : MessageData) : Option RenderedMessage :=
  (s.users.find? (fun u => u.name == m.«from»)).map
    (fun u => ⟨u.avatar, m.«from», renderBody m.message⟩)

/-- Rendering the whole message list in order; any panic aborts. -/
def renderAll (s : Chat) : List MessageData → Option (List RenderedMessage)
  | [] => some []
  | m :: rest => do
    let r ← renderMessage s m
    let rs ← renderAll s rest
    some (r :: rs)

/-- The message pane of `Chat::view`. -/
def renderMessages (s : Chat) : Option (List RenderedMessage) :=
  renderAll s s.messages

/-- Result of the `Msg::SubmitMessage` arm: the (unchanged) state, the
frames handed to the websocket channel, the input field value after the
arm runs (`none` when the node cast failed), and the re-render flag. -/
structure SubmitResult where
  state : Chat
  sent : List WebSocketMessage
  inputAfter : Option String
  rerender : Bool
deriving Repr, DecidableEq

/-- The `Msg::SubmitMessage` arm of `Chat::update`.  `input` is the
current input field value (`none` when the `HtmlInputElement` cast
fails); `sendOk` is whether `try_send` succeeded (its error is only
logged, so it does not change the effect). -/
def submitMessage (s : Chat) (input : Option String) (_sendOk : Bool) : SubmitResult :=
  match input with
  | some value =>
    { state := s
      sent := [⟨MsgTypes.Message, none, some value⟩]
      inputAfter := some ""
      rerender := false }
  | none =>
    { state := s, sent := [], inputAfter := none, rerender := false }

/-- Write one key into a localStorage map. -/
def setItem (store : String → Option String) (key value : String) :
    String → Option String :=
  fun k => if k == key then some value else store k

/-- Rust `bool::to_string`. -/
def boolString (b : Bool) : String :=
  if b then "true" else "false"

/-- Result of the `Msg::ToggleDarkMode` arm: the new state, the
localStorage contents after the arm (`none` when no storage was
available), and the re-render flag. -/
structure ToggleResult where
  state : Chat
  store : Option (String → Option String)
  rerender : Bool

/-- The `Msg::ToggleDarkMode` arm of `Chat::update`: flip the flag, then
best-effort persist it under "dark_mode" (`setOk` is whether `set_item`
succeeded; its error is discarded), and request a re-render. -/
def toggleDarkMode (s : Chat) (store : Option (String → Option String))
    (setOk : Bool) : ToggleResult :=
  let dark := !s.dark_mode
  { state := { s with dark_mode := dark }
    store := store.map (fun st =>
      if setOk then setItem st "dark_mode" (boolString dark) else st)
    rerender := true }

/-- The dark-mode load chain of `Chat::create`:
`window().and_then(local_storage().ok()).flatten()
 .and_then(get_item("dark_mode").ok()).flatten()
 .map(v == "true").unwrap_or(false)`.
The environment is `none` when no window exists; the window's
`local_storage()` result is an `Except` over an optional storage; the
storage maps a key to an `Except` over an optional value. -/
def loadDarkMode
    (window : Option (Except Unit (Option (String → Except Unit (Option String))))) :
    Bool :=
  (((((window.bind (fun w => w.toOption)).bind id).bind
      (fun storage => (storage "dark_mode").toOption)).bind id).map
    (fun value => value == "true")).getD false

/-- An always-working environment built from a plain key/value map. -/
def envOfMap (m : String → Option String) :
    Option (Except Unit (Option (String → Except Unit (Option String)))) :=
  some (Except.ok (some (fun k => Except.ok (m k))))

/-- Result of `Chat::create`: the initial state and the frames handed to
the websocket channel. -/
structure InitResult where
  state : Chat
  sent : List WebSocketMessage

/-- `Chat::create`: send a `register` frame carrying the username, load
the dark-mode preference, start with empty roster and message list. -/
def create (username : String)
    (window : Option (Except Unit (Option (String → Except Unit (Option String))))) :
    InitResult :=
  { state := { users := [], messages := [], dark_mode := loadDarkMode window }
    sent := [⟨MsgTypes.Register, none, some username⟩] }

/-! ## Helper lemmas -/

/-- If any message fails to render, rendering the whole list panics. -/
theorem renderAll_eq_none (s : Chat) (l : List MessageData) (m : MessageData)
    (hm : m ∈ l) (h : renderMessage s m = none) : renderAll s l = none := by
  induction l with
  | nil => cases hm
  | cons a t ih =>
    cases hm with
    | head => simp [renderAll, h]
    | tail _ hm' =>
      cases ha : renderMessage s a <;> simp [renderAll, ha, ih hm']

/-- Characterisation of the embedded `str::ends_with`. -/
theorem strEndsWith_iff (s post : String) :
    strEndsWith s post = true ↔ ∃ pre, s = pre ++ post := by
  unfold strEndsWith
  rw [List.isSuffixOf_iff_suffix]
  constructor
  · rintro ⟨t, ht⟩
    exact ⟨⟨t⟩, String.ext (by simpa using ht.symm)⟩
  · rintro ⟨pre, rfl⟩
    exact ⟨pre.data, by simp⟩

/-! ## Claim theorems -/

/-- Claim C1: for every nonempty sequence of inbound users events, after
processing the last one the roster equals exactly one UserProfile per
name in that last event's list, in order — a full replacement with no
merging of entries from earlier snapshots. -/
theorem users_events_full_replace (jsonOfString : String → Option Json)
    (s : Chat) (l : List (List String)) (names : List String)
    (h : l.getLast? = some names) :
    processParsed jsonOfString s (l.map usersFrame) =
      some { s with users := names.map mkProfile } := by
  induction l generalizing s with
  | nil => simp at h
  | cons a t ih =>
    cases t with
    | nil =>
      simp only [List.getLast?_singleton, Option.some.injEq] at h
      subst h
      rfl
    | cons b t' =>
      rw [List.getLast?_cons_cons] at h
      exact ih (s := { s with users := a.map mkProfile }) h

/-- Claim C1 witness: the snapshots ["a","b"] then ["c"] leave exactly
the roster ["c"]. -/
theorem users_events_full_replace_witness :
    processParsed (fun _ => none) ⟨[], [], false⟩
        ([["a", "b"], ["c"]].map usersFrame) =
      some ⟨["c"].map mkProfile, [], false⟩ :=
  users_events_full_replace (fun _ => none) ⟨[], [], false⟩ [["a", "b"], ["c"]]
    ["c"] rfl

/-- Claim C3: in any state holding a message whose sender matches no
current roster entry, the view's sender lookup finds nothing and the
unwrap panics, aborting rendering. -/
theorem unknown_sender_render_panics (s : Chat) (m : MessageData)
    (hm : m ∈ s.messages) (hu : ∀ u ∈ s.users, u.name ≠ m.«from») :
    renderMessages s = none := by
  apply renderAll_eq_none s s.messages m hm
  unfold renderMessage
  rw [List.find?_eq_none.mpr, Option.map_none']
  intro u hu'
  simpa using hu u hu'

/-- Claim C3 witness: one message from "x" with an empty roster aborts
rendering. -/
theorem unknown_sender_render_panics_witness :
    renderMessages ⟨[], [⟨"x", "hi"⟩], false⟩ = none :=
  unknown_sender_render_panics ⟨[], [⟨"x", "hi"⟩], false⟩ ⟨"x", "hi"⟩
    (by simp) (by simp)

/-- Claim C7: a message body renders as an image exactly when it ends
with the literal suffix ".gif"; "foo.gif" is an image, "foo.gif.txt"
and the empty body are plain text. -/
theorem gif_suffix_rendering (body : String) :
    ((renderBody body = BodyRender.image body) ↔ ∃ pre, body = pre ++ ".gif") ∧
    renderBody "foo.gif" = BodyRender.image "foo.gif" ∧
    renderBody "foo.gif.txt" = BodyRender.text "foo.gif.txt" ∧
    renderBody "" = BodyRender.text "" := by
  refine ⟨?_, by decide, by decide, by decide⟩
  rw [← strEndsWith_iff]
  unfold renderBody
  cases h : strEndsWith body ".gif" <;> simp [h]

/-- Claim C7 witness: the image branch at the concrete body "foo.gif". -/
theorem gif_suffix_rendering_witness :
    renderBody "foo.gif" = BodyRender.image "foo.gif" :=
  (gif_suffix_rendering "foo.gif").1.mpr ⟨"foo", rfl⟩

/-- Claim C2: for every sequence of inbound message events whose nested
payloads parse to (from, body) pairs, processing them appends exactly
those pairs to the message list in arrival order; earlier entries are
neither mutated nor removed. -/
theorem message_events_append_in_order (jsonOfString : String → Option Json)
    (s : Chat) (ds : List String) (l : List (String × String))
    (h : List.Forall₂
      (fun d p => (jsonOfString d).bind parseMessageData = some ⟨p.1, p.2⟩) ds l) :
    processParsed jsonOfString s (ds.map messageFrame) =
      some { s with
             messages := s.messages ++ l.map (fun p => ⟨p.1, p.2⟩) } := by
  induction h generalizing s with
  | nil => simp [processParsed]
  | cons hd tl ih =>
    rename_i d p ds' l'
    have step : updateParsed jsonOfString s (messageFrame d) =
        some ({ s with messages := s.messages ++ [⟨p.1, p.2⟩] }, true) := by
      simp [updateParsed, messageFrame, hd]
    simp only [List.map_cons, processParsed, step, Option.some_bind]
    rw [ih]
    simp

/-- Payloads used to witness Claim C2: "m1" parses to ("a","hi") and
"m2" to ("b","yo"). -/
def sampleOracle : String → Option Json :=
  fun d =>
    if d = "m1" then some (Json.obj [("from", Json.str "a"), ("message", Json.str "hi")])
    else if d = "m2" then some (Json.obj [("from", Json.str "b"), ("message", Json.str "yo")])
    else none

/-- Claim C2 witness: payloads ("a","hi") then ("b","yo") yield exactly
that message list. -/
theorem message_events_append_in_order_witness :
    processParsed sampleOracle ⟨[], [], false⟩ (["m1", "m2"].map messageFrame) =
      some ⟨[], [⟨"a", "hi"⟩, ⟨"b", "yo"⟩], false⟩ :=
  message_events_append_in_order sampleOracle ⟨[], [], false⟩ ["m1", "m2"]
    [("a", "hi"), ("b", "yo")]
    (List.Forall₂.cons (by decide) (List.Forall₂.cons (by decide) List.Forall₂.nil))

/-- Claim C4: an inbound frame whose text is not valid JSON, or whose
struct decode fails, or a message frame whose data is absent or whose
nested payload does not parse, makes handleMsg panic (none) instead of
discarding the frame and continuing. -/
theorem malformed_frame_panics (jsonOfString : String → Option Json) (s : Chat) :
    handleMsg jsonOfString s none = none ∧
    (∀ j, parseWebSocketMessage j = none →
      handleMsg jsonOfString s (some j) = none) ∧
    (∀ raw msg, raw.bind parseWebSocketMessage = some msg →
      msg.message_type = MsgTypes.Message → msg.data = none →
      handleMsg jsonOfString s raw = none) ∧
    (∀ raw msg d, raw.bind parseWebSocketMessage = some msg →
      msg.message_type = MsgTypes.Message → msg.data = some d →
      (jsonOfString d).bind parseMessageData = none →
      handleMsg jsonOfString s raw = none) := by
  refine ⟨rfl, ?_, ?_, ?_⟩
  · intro j hj
    simp [handleMsg, hj]
  · intro raw msg hp hmt hd
    obtain ⟨mt, da, d⟩ := msg
    dsimp only at hmt hd
    subst hmt
    subst hd
    simp [handleMsg, hp, updateParsed]
  · intro raw msg d hp hmt hd hn
    obtain ⟨mt, da, dd⟩ := msg
    dsimp only at hmt hd
    subst hmt
    subst hd
    simp [handleMsg, hp, updateParsed, hn]

/-- Claim C4 witness: a message frame whose data payload is not valid
JSON panics the component. -/
theorem malformed_frame_panics_witness :
    handleMsg (fun _ => none) ⟨[], [], false⟩
        (some (Json.obj [("messageType", Json.str "message"),
                         ("data", Json.str "oops")])) = none :=
  (malformed_frame_panics (fun _ => none) ⟨[], [], false⟩).2.2.2
    (some (Json.obj [("messageType", Json.str "message"),
                     ("data", Json.str "oops")]))
    ⟨MsgTypes.Message, none, some "oops"⟩ "oops" (by decide) rfl rfl rfl

/-- Claim C5: for every input-field text t, SubmitMessage hands exactly
one message frame with data t to the channel, clears the field
synchronously whether or not the send succeeded, leaves the state (in
particular the message list) unchanged, and requests no re-render. -/
theorem submit_sends_one_frame_clears_input (s : Chat) (t : String)
    (sendOk : Bool) :
    submitMessage s (some t) sendOk =
      { state := s
        sent := [⟨MsgTypes.Message, none, some t⟩]
        inputAfter := some ""
        rerender := false } ∧
    submitMessage s (some t) true = submitMessage s (some t) false ∧
    (submitMessage s (some t) sendOk).state.messages = s.messages :=
  ⟨rfl, rfl, rfl⟩

/-- Claim C6: ToggleDarkMode persists the string encoding of the flipped
flag under the key "dark_mode", and a fresh create against that stored
contents reads the flipped boolean back — the persisted value
round-trips. -/
theorem dark_mode_round_trip (s : Chat) (st : String → Option String)
    (u : String) :
    (toggleDarkMode s (some st) true).state.dark_mode = !s.dark_mode ∧
    (toggleDarkMode s (some st) true).store.map (fun m => m "dark_mode") =
      some (some (boolString (!s.dark_mode))) ∧
    (∀ m, (toggleDarkMode s (some st) true).store = some m →
      (create u (envOfMap m)).state.dark_mode = !s.dark_mode) := by
  refine ⟨rfl, rfl, ?_⟩
  intro m hm
  simp only [toggleDarkMode, if_pos, Option.map_some', Option.some.injEq] at hm
  subst hm
  cases hb : s.dark_mode <;>
    simp [create, loadDarkMode, envOfMap, setItem, boolString, hb,
      Except.toOption]

/-- Claim C6 witness: starting from dark mode off, toggling stores
"true" and a fresh create loads it back as true. -/
theorem dark_mode_round_trip_witness :
    (create "u" (envOfMap (setItem (fun _ => none) "dark_mode"
        (boolString (!false))))).state.dark_mode = !false :=
  (dark_mode_round_trip ⟨[], [], false⟩ (fun _ => none) "u").2.2
    (setItem (fun _ => none) "dark_mode" (boolString (!false))) rfl

/-- Claim C8: create loads the dark-mode preference from the store, and
the flag defaults to false whenever the window is absent, storage
access fails or yields no storage, the get fails, or the stored value
is absent. -/
theorem create_dark_mode_defaults (u : String) :
    (create u none).state.dark_mode = false ∧
    (create u (some (Except.error ()))).state.dark_mode = false ∧
    (create u (some (Except.ok none))).state.dark_mode = false ∧
    (∀ st, st "dark_mode" = Except.error () →
      (create u (some (Except.ok (some st)))).state.dark_mode = false) ∧
    (∀ st, st "dark_mode" = Except.ok none →
      (create u (some (Except.ok (some st)))).state.dark_mode = false) ∧
    (∀ st v, st "dark_mode" = Except.ok (some v) →
      (create u (some (Except.ok (some st)))).state.dark_mode = (v == "true")) := by
  refine ⟨rfl, rfl, rfl, ?_, ?_, ?_⟩ <;>
    intro st <;>
    first
    | (intro h; simp [create, loadDarkMode, h, Except.toOption])
    | (intro v h; simp [create, loadDarkMode, h, Except.toOption])

/-- Claim C8 witness: an empty storage map yields dark mode false. -/
theorem create_dark_mode_defaults_witness :
    (create "u" (some (Except.ok (some (fun _ => Except.ok none))))).state.dark_mode
      = false :=
  (create_dark_mode_defaults "u").2.2.2.2.1 (fun _ => Except.ok none) rfl

/-- Claim C9: a successfully processed inbound frame requests a
re-render exactly when its tag is users or message; a register frame
returns false leaving roster, message list and dark-mode flag
unchanged. -/
theorem rerender_iff_users_or_message (jsonOfString : String → Option Json)
    (s : Chat) :
    (∀ raw s' b, handleMsg jsonOfString s raw = some (s', b) →
      (b = true ↔
        ((raw.bind parseWebSocketMessage).map WebSocketMessage.message_type
            = some MsgTypes.Users ∨
         (raw.bind parseWebSocketMessage).map WebSocketMessage.message_type
            = some MsgTypes.Message))) ∧
    (∀ raw msg, raw.bind parseWebSocketMessage = some msg →
      msg.message_type = MsgTypes.Register →
      handleMsg jsonOfString s raw = some (s, false)) := by
  constructor
  · intro raw s' b h
    cases hp : raw.bind parseWebSocketMessage with
    | none => simp [handleMsg, hp] at h
    | some msg =>
      obtain ⟨mt, da, d⟩ := msg
      rw [handleMsg, hp, Option.some_bind] at h
      cases mt with
      | Users =>
        simp only [updateParsed, Option.some.injEq, Prod.mk.injEq] at h
        simp [hp, h.2.symm]
      | Register =>
        simp only [updateParsed, Option.some.injEq, Prod.mk.injEq] at h
        simp [hp, ← h.2]
      | Message =>
        cases d with
        | none => simp [updateParsed] at h
        | some d' =>
          cases hn : (jsonOfString d').bind parseMessageData with
          | none => simp [updateParsed, hn] at h
          | some md =>
            simp only [updateParsed, Option.some_bind, hn,
              Option.some.injEq, Prod.mk.injEq] at h
            simp [hp, h.2.symm]
  · intro raw msg hp hmt
    obtain ⟨mt, da, d⟩ := msg
    dsimp only at hmt
    subst hmt
    simp [handleMsg, hp, updateParsed]

/-- Claim C9 witness: a register frame is processed with no re-render
and no state change. -/
theorem rerender_iff_users_or_message_witness :
    handleMsg (fun _ => none) ⟨[], [], false⟩
        (some (Json.obj [("messageType", Json.str "register")])) =
      some (⟨[], [], false⟩, false) :=
  (rerender_iff_users_or_message (fun _ => none) ⟨[], [], false⟩).2
    (some (Json.obj [("messageType", Json.str "register")]))
    ⟨MsgTypes.Register, none, none⟩ (by decide) rfl

/-- Claim C10: a users frame whose dataArray field is absent or null is
not an error — the roster is replaced by the empty list via
unwrap_or_default, a re-render is requested, and nothing panics. -/
theorem users_frame_missing_dataArray (jsonOfString : String → Option Json)
    (s : Chat) :
    handleMsg jsonOfString s
        (some (Json.obj [("messageType", Json.str "users")])) =
      some ({ s with users := [] }, true) ∧
    handleMsg jsonOfString s
        (some (Json.obj [("messageType", Json.str "users"),
                         ("dataArray", Json.null)])) =
      some ({ s with users := [] }, true) :=
  ⟨rfl, rfl⟩
